import Mathlib

set_option maxRecDepth 100000

/-!
Verification of the buffered-graphics core of the `ssd1306` display driver.

The definitions below are a shallow embedding of `src/mode/buffered_graphics.rs`
(pixel mutation, dirty-region tracking, flush orchestration), of the display
geometry constants from `src/displaysize.rs`, and of the font indexing in
`src/mode/character.rs`.  Machine integers (`u8`, `u32`, `usize`) are embedded
as `Nat` with `% 256` inserted exactly where the Rust code performs a `u8`
cast or a `u8` addition that may wrap; `u8` subtractions that the documented
geometry invariants keep non-negative are embedded as truncated `Nat`
subtraction.
-/

namespace Ssd1306

/-- Display rotation setting, from `src/rotation.rs` (`DisplayRotation`). -/
inductive DisplayRotation
  | Rotate0
  | Rotate90
  | Rotate180
  | Rotate270
deriving DecidableEq, Repr

/-- Per-model display geometry.  Width, height and the offsets are the
associated constants of the `DisplaySize` trait in `src/displaysize.rs`.
`driverCols` is `SIZE::DRIVER_COLS`, referenced by `display_area` in
`src/mode/buffered_graphics.rs`; its declaration is not among the sources, so
it is Modelled from the spec: the Geometry Descriptor's `driverColumns`, "the
controller's total column count", with invariant `offsetX + width <=
driverColumns`. -/
structure Geometry where
  width : Nat
  height : Nat
  offsetX : Nat
  offsetY : Nat
  driverCols : Nat
deriving DecidableEq, Repr

/-- `DisplaySize128x64` from `src/displaysize.rs` (`DRIVER_COLS` takes the
controller's full 128-column count, per the spec's geometry descriptor). -/
def DisplaySize128x64 : Geometry := ⟨128, 64, 0, 0, 128⟩

/-- `DisplaySize72x40` from `src/displaysize.rs`: `WIDTH = 72`, `HEIGHT = 40`,
`OFFSETX = 28`, `OFFSETY = 0`. -/
def DisplaySize72x40 : Geometry := ⟨72, 40, 28, 0, 128⟩

/-- The mutable display state: the framebuffer and dirty-region fields of
`BufferedGraphicsMode` (`src/mode/buffered_graphics.rs`, lines 19-28) together
with the rotation setting held by the owning `Ssd1306` value.  Framebuffer
bytes are `Nat`s kept below 256. -/
structure State where
  buffer : List Nat
  min_x : Nat
  max_x : Nat
  min_y : Nat
  max_y : Nat
  rotation : DisplayRotation
deriving DecidableEq, Repr

/-- `BufferedGraphicsMode::new` (`src/mode/buffered_graphics.rs`, lines 35-43):
a zero-filled buffer and the empty-sentinel dirty region. -/
def newState (len : Nat) (rot : DisplayRotation) : State :=
  { buffer := List.replicate len 0
    min_x := 255
    max_x := 0
    min_y := 255
    max_y := 0
    rotation := rot }

/-- Modelled from the spec: `Ssd1306::dimensions` is not among the sources;
§4.4 states the logical size "reflects current rotation (width/height swap for
90°/270°)". -/
def dimensions (g : Geometry) (rot : DisplayRotation) : Nat × Nat :=
  match rot with
  | .Rotate0 | .Rotate180 => (g.width, g.height)
  | .Rotate90 | .Rotate270 => (g.height, g.width)

/-- `Ssd1306::set_pixel` (`src/mode/buffered_graphics.rs`, lines 83-114).
The `if let Some(byte) = buffer.get_mut(idx)` bounds check becomes the
`idx < buffer.length` test; `x as u8` / `y as u8` become `% 256`;
`*byte & !(1 << bit) | (value << bit)` is the same bit arithmetic on `Nat`
(with `!` on `u8` written `255 ^^^ ·`). -/
def set_pixel (g : Geometry) (s : State) (x y : Nat) (value : Bool) : State :=
  let v : Nat := if value then 1 else 0
  let ib : Nat × Nat :=
    match s.rotation with
    | .Rotate0 | .Rotate180 => (y / 8 * g.width + x, y % 8)
    | .Rotate90 | .Rotate270 => (x / 8 * g.width + y, x % 8)
  let idx := ib.1
  let bit := ib.2
  if idx < s.buffer.length then
    { s with
      buffer := s.buffer.set idx
        ((s.buffer.getD idx 0 &&& (255 ^^^ (1 <<< bit))) ||| (v <<< bit))
      min_x := min s.min_x (x % 256)
      max_x := max s.max_x (x % 256)
      min_y := min s.min_y (y % 256)
      max_y := max s.max_y (y % 256) }
  else
    s

/-- `clear_impl` (`src/mode/buffered_graphics.rs`, lines 71-79): the buffer is
filled with `value as u8` (so `1` for `true`, `0` for `false`) and the dirty
region is set to the full logical extent. -/
def clear_impl (g : Geometry) (s : State) (value : Bool) : State :=
  let fill : Nat := if value then 1 else 0
  let wh := dimensions g s.rotation
  { s with
    buffer := s.buffer.map fun _ => fill
    min_x := 0
    max_x := wh.1 - 1
    min_y := 0
    max_y := wh.2 - 1 }

/-- `dirty_area` (`src/mode/buffered_graphics.rs`, lines 116-130).  The `u8`
increments `max_x + 1` / `max_y + 1` wrap, hence the `% 256`. -/
def dirty_area (s : State) (width height : Nat) : (Nat × Nat) × (Nat × Nat) :=
  let mn := (s.min_x, s.min_y)
  let mx :=
    match s.rotation with
    | .Rotate0 | .Rotate180 =>
      (min ((s.max_x + 1) % 256) width, min (s.max_y ||| 7) height)
    | .Rotate90 | .Rotate270 =>
      (min (s.max_x ||| 7) width, min ((s.max_y + 1) % 256) height)
  (mn, mx)

/-- `display_area` (`src/mode/buffered_graphics.rs`, lines 132-152).  The
mirrored-scan offset `DRIVER_COLS - WIDTH - OFFSETX` is truncated `Nat`
subtraction, sound under the documented invariant
`offsetX + width <= driverColumns`; the `u8` additions wrap, hence `% 256`. -/
def display_area (g : Geometry) (rot : DisplayRotation)
    (disp_min disp_max : Nat × Nat) : (Nat × Nat) × (Nat × Nat) :=
  let offset_x :=
    match rot with
    | .Rotate0 | .Rotate270 => g.offsetX
    | .Rotate180 | .Rotate90 => g.driverCols - g.width - g.offsetX
  match rot with
  | .Rotate0 | .Rotate180 =>
    (((disp_min.1 + offset_x) % 256, (disp_min.2 + g.offsetY) % 256),
     ((disp_max.1 + offset_x) % 256, (disp_max.2 + g.offsetY) % 256))
  | .Rotate90 | .Rotate270 =>
    (((disp_min.2 + offset_x) % 256, (disp_min.1 + g.offsetY) % 256),
     ((disp_max.2 + offset_x) % 256, (disp_max.1 + g.offsetY) % 256))

/-- One observable transmission to the command channel: either the addressing
command carrying the device-space rectangle corners (`set_draw_area`) or one
contiguous page-row byte span (`send_data` inside `flush_buffer_chunks`). -/
inductive Emission
  | setDrawArea : Nat × Nat → Nat × Nat → Emission
  | dataChunk : List Nat → Emission
deriving DecidableEq, Repr

/-- Modelled from the spec: `flush_buffer_chunks` is not among the sources;
§4.3 step 6 describes it: stream the buffer page-row by page-row, for each
page row intersecting the dirty y-range send only the byte span intersecting
the dirty x-range (column-exclusive upper bound), rows in increasing page
order, with `disp_width` as the rotated row length used for chunk
boundaries. -/
def flush_buffer_chunks (buffer : List Nat) (disp_width : Nat)
    (upper_left lower_right : Nat × Nat) : List Emission :=
  let starting_page := upper_left.2 / 8
  let num_pages := (lower_right.2 - upper_left.2) / 8 + 1
  (List.range num_pages).map fun i =>
    Emission.dataChunk
      ((((buffer.drop ((starting_page + i) * disp_width)).take disp_width).drop
          upper_left.1).take (lower_right.1 - upper_left.1))

/-- Modelled from the spec: `flush_buffer_chunks_async` is not among the
sources; §4.3/§6 state the asynchronous data path has "identical sequencing
guarantees", differing only in that each send may suspend. -/
def flush_buffer_chunks_async (buffer : List Nat) (disp_width : Nat)
    (upper_left lower_right : Nat × Nat) : List Emission :=
  let starting_page := upper_left.2 / 8
  let num_pages := (lower_right.2 - upper_left.2) / 8 + 1
  (List.range num_pages).map fun i =>
    Emission.dataChunk
      ((((buffer.drop ((starting_page + i) * disp_width)).take disp_width).drop
          upper_left.1).take (lower_right.1 - upper_left.1))

/-- Sequentially attempt the data sends: `ch n` tells whether the `n`-th send
on the channel succeeds.  Returns the emissions actually sent and the result;
the first failure aborts the remainder (`try_fold` over `send_data`). -/
def transmit (ch : Nat → Bool) : List Emission → Nat → List Emission × Except Unit Unit
  | [], _ => ([], Except.ok ())
  | e :: rest, n =>
    if ch n then
      let tr := transmit ch rest (n + 1)
      (e :: tr.1, tr.2)
    else
      ([], Except.error ())

/-- `Ssd1306::flush` (`src/mode/buffered_graphics.rs`, lines 163-197).  The
channel `ch` decides the success of each send in order (send 0 is
`set_draw_area`, sends 1.. are the data chunks); the returned triple is the
state after the call, the emissions actually sent, and the `Result`. -/
def flush (g : Geometry) (s : State) (ch : Nat → Bool) :
    State × List Emission × Except Unit Unit :=
  if s.max_x < s.min_x ∨ s.max_y < s.min_y then
    (s, [], Except.ok ())
  else
    let wh := dimensions g s.rotation
    let width := wh.1
    let height := wh.2
    let da := dirty_area s width height
    let disp_min := da.1
    let disp_max := da.2
    let area := display_area g s.rotation disp_min disp_max
    let s1 : State := { s with min_x := 255, max_x := 0, min_y := 255, max_y := 0 }
    if ch 0 then
      let chunks :=
        match s.rotation with
        | .Rotate0 | .Rotate180 =>
          flush_buffer_chunks s.buffer width (disp_min.1, disp_min.2)
            (disp_max.1, disp_max.2)
        | .Rotate90 | .Rotate270 =>
          flush_buffer_chunks s.buffer height (disp_min.2, disp_min.1)
            (disp_max.2, disp_max.1)
      let tr := transmit ch chunks 1
      (s1, Emission.setDrawArea area.1 area.2 :: tr.1, tr.2)
    else
      (s1, [], Except.error ())

/-- `Ssd1306::flush_async` (`src/mode/buffered_graphics.rs`, lines 209-249):
the same orchestration as `flush`, with `set_draw_area_async` and
`flush_buffer_chunks_async` as the transmission calls. -/
def flush_async (g : Geometry) (s : State) (ch : Nat → Bool) :
    State × List Emission × Except Unit Unit :=
  if s.max_x < s.min_x ∨ s.max_y < s.min_y then
    (s, [], Except.ok ())
  else
    let wh := dimensions g s.rotation
    let width := wh.1
    let height := wh.2
    let da := dirty_area s width height
    let disp_min := da.1
    let disp_max := da.2
    let area := display_area g s.rotation disp_min disp_max
    let s1 : State := { s with min_x := 255, max_x := 0, min_y := 255, max_y := 0 }
    if ch 0 then
      let chunks :=
        match s.rotation with
        | .Rotate0 | .Rotate180 =>
          flush_buffer_chunks_async s.buffer width (disp_min.1, disp_min.2)
            (disp_max.1, disp_max.2)
        | .Rotate90 | .Rotate270 =>
          flush_buffer_chunks_async s.buffer height (disp_min.2, disp_min.1)
            (disp_max.2, disp_max.1)
      let tr := transmit ch chunks 1
      (s1, Emission.setDrawArea area.1 area.2 :: tr.1, tr.2)
    else
      (s1, [], Except.error ())

end Ssd1306

namespace Ssd1306

/-! ## Helper lemmas -/

set_option maxRecDepth 8000 in
/-- Rounding a page-relative coordinate up with `||| 7` fills the low three
bits. -/
theorem lor7_eq : ∀ y < 256, y ||| 7 = 8 * (y / 8) + 7 := by decide

/-- The page/byte index of an in-range pixel lies inside a
`width * height / 8`-byte framebuffer. -/
theorem page_index_lt (w k a b : Nat) (ha : a < 8 * k) (hb : b < w) :
    a / 8 * w + b < w * (8 * k) / 8 := by
  have h1 : a / 8 + 1 ≤ k := by omega
  have h2 : (a / 8 + 1) * w ≤ k * w := Nat.mul_le_mul_right _ h1
  have h3 : w * (8 * k) / 8 = k * w := by
    have h4 : w * (8 * k) = 8 * (k * w) := by ring
    rw [h4, Nat.mul_div_cancel_left _ (by norm_num : (0 : Nat) < 8)]
  calc a / 8 * w + b < a / 8 * w + w := by omega
    _ = (a / 8 + 1) * w := by ring
    _ ≤ k * w := h2
    _ = w * (8 * k) / 8 := h3.symm

/-! ## Claims -/

/-- Claim C1: for every in-range coordinate (in the logical rotation-aware
dimensions) and every rotation, `set_pixel` updates the framebuffer byte at
index `(y / 8) * width + x` with bit offset `y % 8` for rotation 0°/180°, and
at index `(x / 8) * width + y` with bit offset `x % 8` for rotation 90°/270°,
by clearing the target bit and OR-ing in `value <<< bitOffset`, and widens the
dirty region to include the logical `(x, y)` by componentwise min/max. -/
theorem set_pixel_in_range_spec (g : Geometry) (s : State) (x y : Nat)
    (value : Bool)
    (hlen : s.buffer.length = g.width * g.height / 8)
    (h8 : 8 ∣ g.height) (hw : g.width < 256) (hh : g.height < 256)
    (hx : x < (dimensions g s.rotation).1)
    (hy : y < (dimensions g s.rotation).2) :
    set_pixel g s x y value =
      match s.rotation with
      | .Rotate0 | .Rotate180 =>
        { s with
          buffer := s.buffer.set (y / 8 * g.width + x)
            ((s.buffer.getD (y / 8 * g.width + x) 0 &&& (255 ^^^ (1 <<< (y % 8)))) |||
              ((if value then 1 else 0) <<< (y % 8)))
          min_x := min s.min_x x
          max_x := max s.max_x x
          min_y := min s.min_y y
          max_y := max s.max_y y }
      | .Rotate90 | .Rotate270 =>
        { s with
          buffer := s.buffer.set (x / 8 * g.width + y)
            ((s.buffer.getD (x / 8 * g.width + y) 0 &&& (255 ^^^ (1 <<< (x % 8)))) |||
              ((if value then 1 else 0) <<< (x % 8)))
          min_x := min s.min_x x
          max_x := max s.max_x x
          min_y := min s.min_y y
          max_y := max s.max_y y } := by
  obtain ⟨buf, mnx, mxx, mny, mxy, rot⟩ := s
  obtain ⟨k, hk⟩ := h8
  cases rot <;>
    simp only [dimensions] at hx hy <;>
    simp only [set_pixel]
  case Rotate0 =>
    have hidx : y / 8 * g.width + x < buf.length := by
      rw [hlen, hk]; exact page_index_lt g.width k y x (by omega) hx
    have hx256 : x % 256 = x := Nat.mod_eq_of_lt (by omega)
    have hy256 : y % 256 = y := Nat.mod_eq_of_lt (by omega)
    rw [if_pos hidx, hx256, hy256]
  case Rotate180 =>
    have hidx : y / 8 * g.width + x < buf.length := by
      rw [hlen, hk]; exact page_index_lt g.width k y x (by omega) hx
    have hx256 : x % 256 = x := Nat.mod_eq_of_lt (by omega)
    have hy256 : y % 256 = y := Nat.mod_eq_of_lt (by omega)
    rw [if_pos hidx, hx256, hy256]
  case Rotate90 =>
    have hidx : x / 8 * g.width + y < buf.length := by
      rw [hlen, hk]; exact page_index_lt g.width k x y (by omega) hy
    have hx256 : x % 256 = x := Nat.mod_eq_of_lt (by omega)
    have hy256 : y % 256 = y := Nat.mod_eq_of_lt (by omega)
    rw [if_pos hidx, hx256, hy256]
  case Rotate270 =>
    have hidx : x / 8 * g.width + y < buf.length := by
      rw [hlen, hk]; exact page_index_lt g.width k x y (by omega) hy
    have hx256 : x % 256 = x := Nat.mod_eq_of_lt (by omega)
    have hy256 : y % 256 = y := Nat.mod_eq_of_lt (by omega)
    rw [if_pos hidx, hx256, hy256]

end Ssd1306

namespace Ssd1306

theorem set_pixel_in_range_spec_witness :
    ((3 : Nat) < (dimensions ⟨8, 8, 0, 0, 8⟩ (newState 8 .Rotate0).rotation).1 ∧
      (5 : Nat) < (dimensions ⟨8, 8, 0, 0, 8⟩ (newState 8 .Rotate0).rotation).2) ∧
    set_pixel ⟨8, 8, 0, 0, 8⟩ (newState 8 .Rotate0) 3 5 true =
      { newState 8 .Rotate0 with
        buffer := (List.replicate 8 0).set 3 32
        min_x := 3
        max_x := 3
        min_y := 5
        max_y := 5 } :=
  ⟨⟨by decide, by decide⟩, by
    rw [set_pixel_in_range_spec ⟨8, 8, 0, 0, 8⟩ (newState 8 .Rotate0) 3 5 true
      (by decide) (by decide) (by decide) (by decide) (by decide) (by decide)]
    decide⟩

/-- Claim C2 (refuted, code bug): `clear(value)` is specified to fill every
framebuffer byte with `0xFF` when `value` is true, but `clear_impl` fills with
`value as u8`, i.e. `0x01`; the dirty region is set to the full extent as
specified. -/
theorem clear_impl_fills_with_one_not_ff :
    (clear_impl DisplaySize128x64 (newState 1024 .Rotate0) true).buffer =
      List.replicate 1024 1 ∧
    (clear_impl DisplaySize128x64 (newState 1024 .Rotate0) false).buffer =
      List.replicate 1024 0 ∧
    (clear_impl DisplaySize128x64 (newState 1024 .Rotate0) true).min_x = 0 ∧
    (clear_impl DisplaySize128x64 (newState 1024 .Rotate0) true).max_x = 127 ∧
    (clear_impl DisplaySize128x64 (newState 1024 .Rotate0) true).min_y = 0 ∧
    (clear_impl DisplaySize128x64 (newState 1024 .Rotate0) true).max_y = 63 ∧
    (1 : Nat) ≠ 0xFF := by
  refine ⟨?_, ?_, rfl, rfl, rfl, rfl, by decide⟩ <;>
    simp [clear_impl, newState, List.map_replicate]

/-- Claim C3 (refuted, code bug): `set_pixel` is documented to be a no-op for
out-of-range coordinates, but with the 128×64 geometry at rotation 0° the call
`set_pixel(128, 0, true)` — whose x is out of range since the logical width is
128 — writes framebuffer byte 128 and widens the dirty region to `x = 128`. -/
theorem set_pixel_oob_still_writes :
    (dimensions DisplaySize128x64 .Rotate0).1 ≤ 128 ∧
    (set_pixel DisplaySize128x64 (newState 1024 .Rotate0) 128 0 true).buffer.getD
        128 0 = 1 ∧
    (newState 1024 .Rotate0).buffer.getD 128 0 = 0 ∧
    (set_pixel DisplaySize128x64 (newState 1024 .Rotate0) 128 0 true).min_x = 128 ∧
    (set_pixel DisplaySize128x64 (newState 1024 .Rotate0) 128 0 true).max_x = 128 ∧
    (newState 1024 .Rotate0).min_x = 255 := by
  decide

end Ssd1306

namespace Ssd1306

/-- Claim C4: in every call to `flush` with a non-empty dirty region, the dirty
region is reset to the empty sentinel (`min_x = 255`, `max_x = 0`,
`min_y = 255`, `max_y = 0`) before the first command or data transmission, so
whatever the channel does — every send succeeding, or any send failing — the
state after `flush` returns carries the empty sentinel. -/
theorem flush_resets_dirty_before_send (g : Geometry) (s : State)
    (hne : ¬(s.max_x < s.min_x ∨ s.max_y < s.min_y)) (ch : Nat → Bool) :
    (flush g s ch).1.min_x = 255 ∧ (flush g s ch).1.max_x = 0 ∧
    (flush g s ch).1.min_y = 255 ∧ (flush g s ch).1.max_y = 0 := by
  simp only [flush, if_neg hne]
  cases h0 : ch 0 <;> simp [h0]

theorem flush_resets_dirty_before_send_witness :
    ¬((⟨List.replicate 8 0, 2, 2, 3, 3, .Rotate0⟩ : State).max_x <
        (⟨List.replicate 8 0, 2, 2, 3, 3, .Rotate0⟩ : State).min_x ∨
      (⟨List.replicate 8 0, 2, 2, 3, 3, .Rotate0⟩ : State).max_y <
        (⟨List.replicate 8 0, 2, 2, 3, 3, .Rotate0⟩ : State).min_y) ∧
    ((flush ⟨8, 8, 0, 0, 8⟩ ⟨List.replicate 8 0, 2, 2, 3, 3, .Rotate0⟩
        (fun _ => false)).1.min_x = 255 ∧
      (flush ⟨8, 8, 0, 0, 8⟩ ⟨List.replicate 8 0, 2, 2, 3, 3, .Rotate0⟩
        (fun _ => false)).1.max_x = 0 ∧
      (flush ⟨8, 8, 0, 0, 8⟩ ⟨List.replicate 8 0, 2, 2, 3, 3, .Rotate0⟩
        (fun _ => false)).1.min_y = 255 ∧
      (flush ⟨8, 8, 0, 0, 8⟩ ⟨List.replicate 8 0, 2, 2, 3, 3, .Rotate0⟩
        (fun _ => false)).1.max_y = 0) :=
  ⟨by decide,
    flush_resets_dirty_before_send ⟨8, 8, 0, 0, 8⟩
      ⟨List.replicate 8 0, 2, 2, 3, 3, .Rotate0⟩ (by decide) (fun _ => false)⟩

/-- Claim C5: whenever the dirty region is empty (`max_x < min_x` or
`max_y < min_y`), `flush` returns `Ok(())` immediately with no transmission;
and after any successful `flush` with no interleaved pixel writes, a second
`flush` sends nothing. -/
theorem flush_empty_sends_nothing (g : Geometry) (s : State)
    (ch ch2 : Nat → Bool) :
    ((s.max_x < s.min_x ∨ s.max_y < s.min_y) →
      flush g s ch = (s, [], Except.ok ())) ∧
    ((flush g s ch).2.2 = Except.ok () →
      flush g (flush g s ch).1 ch2 = ((flush g s ch).1, [], Except.ok ())) := by
  constructor
  · intro hemp
    simp only [flush, if_pos hemp]
  · intro _
    by_cases hemp : s.max_x < s.min_x ∨ s.max_y < s.min_y
    · simp only [flush, if_pos hemp]
    · have hpost : (flush g s ch).1 =
          { s with min_x := 255, max_x := 0, min_y := 255, max_y := 0 } := by
        simp only [flush, if_neg hemp]
        cases h0 : ch 0 <;> simp [h0]
      rw [hpost]
      simp [flush]

theorem flush_empty_sends_nothing_witness :
    ((newState 8 .Rotate0).max_x < (newState 8 .Rotate0).min_x ∨
      (newState 8 .Rotate0).max_y < (newState 8 .Rotate0).min_y) ∧
    flush ⟨8, 8, 0, 0, 8⟩ (newState 8 .Rotate0) (fun _ => true) =
      (newState 8 .Rotate0, [], Except.ok ()) :=
  ⟨by decide,
    (flush_empty_sends_nothing ⟨8, 8, 0, 0, 8⟩ (newState 8 .Rotate0)
      (fun _ => true) (fun _ => true)).1 (by decide)⟩

end Ssd1306

namespace Ssd1306

/-- Claim C6: with a non-empty in-bounds dirty region, `dirty_area` returns the
tracked rectangle rounded up to page boundaries: for rotation 0°/180° the
maximum y becomes `min(max_y ||| 7, height - 1)` and the maximum x becomes
`min(max_x + 1, width)` (column-exclusive upper bound); for rotation 90°/270°
the roles of the axes swap (maximum x becomes `min(max_x ||| 7, width)` and
maximum y becomes `min(max_y + 1, height)`). -/
theorem dirty_area_page_rounding (s : State) (w h : Nat)
    (hw : w < 256) (hh : h < 256) (h8 : 8 ∣ h)
    (hmx : s.max_x < w) (hmy : s.max_y < h) :
    dirty_area s w h =
      ((s.min_x, s.min_y),
        match s.rotation with
        | .Rotate0 | .Rotate180 =>
          (min (s.max_x + 1) w, min (s.max_y ||| 7) (h - 1))
        | .Rotate90 | .Rotate270 =>
          (min (s.max_x ||| 7) w, min (s.max_y + 1) h)) := by
  obtain ⟨buf, mnx, mxx, mny, mxy, rot⟩ := s
  simp only at hmx hmy
  have hx1 : (mxx + 1) % 256 = mxx + 1 := Nat.mod_eq_of_lt (by omega)
  have hy1 : (mxy + 1) % 256 = mxy + 1 := Nat.mod_eq_of_lt (by omega)
  have hlor := lor7_eq mxy (by omega)
  cases rot
  case Rotate0 =>
    simp only [dirty_area]
    rw [hx1, hlor]
    have hmin : min (8 * (mxy / 8) + 7) h = min (8 * (mxy / 8) + 7) (h - 1) := by
      omega
    rw [hmin]
  case Rotate180 =>
    simp only [dirty_area]
    rw [hx1, hlor]
    have hmin : min (8 * (mxy / 8) + 7) h = min (8 * (mxy / 8) + 7) (h - 1) := by
      omega
    rw [hmin]
  case Rotate90 =>
    simp only [dirty_area]
    rw [hy1]
  case Rotate270 =>
    simp only [dirty_area]
    rw [hy1]

theorem dirty_area_page_rounding_witness :
    ((⟨List.replicate 8 0, 2, 2, 3, 3, .Rotate0⟩ : State).max_x < 8 ∧
      (⟨List.replicate 8 0, 2, 2, 3, 3, .Rotate0⟩ : State).max_y < 8) ∧
    dirty_area (⟨List.replicate 8 0, 2, 2, 3, 3, .Rotate0⟩ : State) 8 8 =
      ((2, 3), (3, 7)) :=
  ⟨by decide, by
    rw [dirty_area_page_rounding (⟨List.replicate 8 0, 2, 2, 3, 3, .Rotate0⟩ : State)
      8 8 (by decide) (by decide) (by decide) (by decide) (by decide)]
    decide⟩

/-- Claim C7: the device-space rectangle uses an effective horizontal offset of
`offsetX` for rotation 0°/270° and `driverColumns - width - offsetX` for
rotation 90°/180°, added to the logical x bound for 0°/180° and to the logical
y bound for 90°/270°; and for the 72×40 geometry with `offsetX = 28` at
rotation 0°, `set_pixel(0, 0, true)` followed by `flush` produces an
addressing rectangle whose column start is 28, not 0. -/
theorem display_area_offset_spec :
    (∀ (g : Geometry) (rot : DisplayRotation) (dmin dmax : Nat × Nat),
      g.offsetX + g.width ≤ g.driverCols → g.driverCols ≤ 255 →
      g.height + g.offsetY ≤ 255 →
      dmin.1 ≤ (dimensions g rot).1 → dmax.1 ≤ (dimensions g rot).1 →
      dmin.2 ≤ (dimensions g rot).2 → dmax.2 ≤ (dimensions g rot).2 →
      display_area g rot dmin dmax =
        match rot with
        | .Rotate0 =>
          ((dmin.1 + g.offsetX, dmin.2 + g.offsetY),
            (dmax.1 + g.offsetX, dmax.2 + g.offsetY))
        | .Rotate180 =>
          ((dmin.1 + (g.driverCols - g.width - g.offsetX), dmin.2 + g.offsetY),
            (dmax.1 + (g.driverCols - g.width - g.offsetX), dmax.2 + g.offsetY))
        | .Rotate90 =>
          ((dmin.2 + (g.driverCols - g.width - g.offsetX), dmin.1 + g.offsetY),
            (dmax.2 + (g.driverCols - g.width - g.offsetX), dmax.1 + g.offsetY))
        | .Rotate270 =>
          ((dmin.2 + g.offsetX, dmin.1 + g.offsetY),
            (dmax.2 + g.offsetX, dmax.1 + g.offsetY))) ∧
    (flush DisplaySize72x40
        (set_pixel DisplaySize72x40 (newState 360 .Rotate0) 0 0 true)
        (fun _ => true)).2.1 =
      [Emission.setDrawArea (28, 0) (29, 7), Emission.dataChunk [1]] ∧
    (28 : Nat) ≠ 0 := by
  refine ⟨?_, by decide, by decide⟩
  intro g rot dmin dmax hinv hcols hoy h1 h2 h3 h4
  cases rot <;> simp only [dimensions] at h1 h2 h3 h4 <;>
    simp only [display_area]
  case Rotate0 =>
    rw [Nat.mod_eq_of_lt (a := dmin.1 + g.offsetX) (by omega),
      Nat.mod_eq_of_lt (a := dmin.2 + g.offsetY) (by omega),
      Nat.mod_eq_of_lt (a := dmax.1 + g.offsetX) (by omega),
      Nat.mod_eq_of_lt (a := dmax.2 + g.offsetY) (by omega)]
  case Rotate180 =>
    rw [Nat.mod_eq_of_lt (a := dmin.1 + (g.driverCols - g.width - g.offsetX))
        (by omega),
      Nat.mod_eq_of_lt (a := dmin.2 + g.offsetY) (by omega),
      Nat.mod_eq_of_lt (a := dmax.1 + (g.driverCols - g.width - g.offsetX))
        (by omega),
      Nat.mod_eq_of_lt (a := dmax.2 + g.offsetY) (by omega)]
  case Rotate90 =>
    rw [Nat.mod_eq_of_lt (a := dmin.2 + (g.driverCols - g.width - g.offsetX))
        (by omega),
      Nat.mod_eq_of_lt (a := dmin.1 + g.offsetY) (by omega),
      Nat.mod_eq_of_lt (a := dmax.2 + (g.driverCols - g.width - g.offsetX))
        (by omega),
      Nat.mod_eq_of_lt (a := dmax.1 + g.offsetY) (by omega)]
  case Rotate270 =>
    rw [Nat.mod_eq_of_lt (a := dmin.2 + g.offsetX) (by omega),
      Nat.mod_eq_of_lt (a := dmin.1 + g.offsetY) (by omega),
      Nat.mod_eq_of_lt (a := dmax.2 + g.offsetX) (by omega),
      Nat.mod_eq_of_lt (a := dmax.1 + g.offsetY) (by omega)]

theorem display_area_offset_spec_witness :
    (DisplaySize72x40.offsetX + DisplaySize72x40.width ≤
      DisplaySize72x40.driverCols) ∧
    display_area DisplaySize72x40 .Rotate0 (0, 0) (1, 7) = ((28, 0), (29, 7)) :=
  ⟨by decide, by
    rw [display_area_offset_spec.1 DisplaySize72x40 .Rotate0 (0, 0) (1, 7)
      (by decide) (by decide) (by decide) (by decide) (by decide) (by decide)
      (by decide)]
    decide⟩

end Ssd1306

namespace Ssd1306

/-- Claim C8: the synchronous `flush` and the asynchronous `flush_async`
compute identical results from identical starting states: for every geometry,
state (buffer, dirty region, rotation) and channel, both return the same final
state, the same sequence of emissions (addressing command and data chunks, in
the same order) and the same result. -/
theorem flush_async_eq_flush (g : Geometry) (s : State) (ch : Nat → Bool) :
    flush_async g s ch = flush g s ch := rfl

end Ssd1306

namespace Ssd1306

/-- One mutating operation of the buffered-graphics mode (the operations named
by the dirty-region invariant): a pixel write, a clear, or a flush with its
channel. -/
inductive Op
  | set (x y : Nat) (v : Bool)
  | clr (v : Bool)
  | flushOp (ch : Nat → Bool)

/-- Apply one operation to the display state. -/
def applyOp (g : Geometry) (s : State) : Op → State
  | .set x y v => set_pixel g s x y v
  | .clr v => clear_impl g s v
  | .flushOp ch => (flush g s ch).1

/-- Run a sequence of operations from a starting state. -/
def runOps (g : Geometry) : State → List Op → State
  | s, [] => s
  | s, op :: rest => runOps g (applyOp g s op) rest

/-- The dirty-region shape asserted by the spec: empty (`max < min` on an
axis) or a bounding box inside the logical dimensions. -/
def dirty_inv (lw lh : Nat) (s : State) : Prop :=
  (s.max_x < s.min_x ∨ s.max_y < s.min_y) ∨
  (s.min_x ≤ s.max_x ∧ s.max_x < lw ∧ s.min_y ≤ s.max_y ∧ s.max_y < lh)

/-- The strong dirty-region invariant: exactly the empty sentinel
(`min_x = 255, max_x = 0, min_y = 255, max_y = 0`) or a bounding box inside
the logical dimensions (so the two axes are never in mixed states). -/
def dirty_sentinel_or_box (lw lh : Nat) (s : State) : Prop :=
  (s.min_x = 255 ∧ s.max_x = 0 ∧ s.min_y = 255 ∧ s.max_y = 0) ∨
  (s.min_x ≤ s.max_x ∧ s.max_x < lw ∧ s.min_y ≤ s.max_y ∧ s.max_y < lh)

/-- An operation whose pixel coordinates lie within the logical
rotation-aware dimensions (clears and flushes are unrestricted). -/
def opInRange (g : Geometry) (rot : DisplayRotation) : Op → Prop
  | .set x y _ => x < (dimensions g rot).1 ∧ y < (dimensions g rot).2
  | .clr _ => True
  | .flushOp _ => True

instance (g : Geometry) (rot : DisplayRotation) :
    DecidablePred (opInRange g rot) := fun op =>
  match op with
  | .set x y _ =>
    inferInstanceAs (Decidable (x < (dimensions g rot).1 ∧ y < (dimensions g rot).2))
  | .clr _ => inferInstanceAs (Decidable True)
  | .flushOp _ => inferInstanceAs (Decidable True)

/-- No operation changes the rotation setting. -/
theorem applyOp_rotation (g : Geometry) (s : State) (op : Op) :
    (applyOp g s op).rotation = s.rotation := by
  cases op
  case set x y v =>
    simp only [applyOp, set_pixel]
    split <;> rfl
  case clr v => rfl
  case flushOp ch =>
    by_cases hc : s.max_x < s.min_x ∨ s.max_y < s.min_y
    · simp [applyOp, flush, hc]
    · simp only [applyOp, flush, if_neg hc]
      cases h0 : ch 0 <;> simp [h0]

/-- Each in-range operation preserves the strong dirty-region invariant. -/
theorem applyOp_preserves_inv (g : Geometry) (rot : DisplayRotation)
    (s : State) (op : Op)
    (hw1 : 1 ≤ g.width) (hh1 : 1 ≤ g.height)
    (hw : g.width < 256) (hh : g.height < 256)
    (hrot : s.rotation = rot) (hop : opInRange g rot op)
    (hinv : dirty_sentinel_or_box (dimensions g rot).1 (dimensions g rot).2 s) :
    dirty_sentinel_or_box (dimensions g rot).1 (dimensions g rot).2
      (applyOp g s op) := by
  subst hrot
  have hlw : 1 ≤ (dimensions g s.rotation).1 ∧ (dimensions g s.rotation).1 < 256 ∧
      1 ≤ (dimensions g s.rotation).2 ∧ (dimensions g s.rotation).2 < 256 := by
    cases s.rotation <;> simp [dimensions] <;> omega
  cases op
  case set x y v =>
    obtain ⟨hx, hy⟩ := hop
    have hx256 : x % 256 = x := Nat.mod_eq_of_lt (by omega)
    have hy256 : y % 256 = y := Nat.mod_eq_of_lt (by omega)
    simp only [applyOp, set_pixel]
    split
    · simp only [dirty_sentinel_or_box] at hinv ⊢
      rw [hx256, hy256]
      rcases hinv with h | h
      · right
        simp only [h.1, h.2.1, h.2.2.1, h.2.2.2]
        omega
      · right
        constructor
        · omega
        constructor
        · simp only [max_def]
          split <;> omega
        constructor
        · omega
        · simp only [max_def]
          split <;> omega
    · exact hinv
  case clr v =>
    simp only [applyOp, clear_impl, dirty_sentinel_or_box]
    right
    omega
  case flushOp ch =>
    by_cases hc : s.max_x < s.min_x ∨ s.max_y < s.min_y
    · simpa [applyOp, flush, hc] using hinv
    · simp only [applyOp, flush, if_neg hc]
      cases h0 : ch 0 <;>
        simp only [h0, Bool.false_eq_true, if_true, if_false, reduceIte] <;>
        exact Or.inl ⟨rfl, rfl, rfl, rfl⟩

/-- Running in-range operations preserves the strong invariant and the
rotation. -/
theorem runOps_preserves_inv (g : Geometry) (rot : DisplayRotation)
    (hw1 : 1 ≤ g.width) (hh1 : 1 ≤ g.height)
    (hw : g.width < 256) (hh : g.height < 256) :
    ∀ (ops : List Op) (s : State), s.rotation = rot →
      (∀ op ∈ ops, opInRange g rot op) →
      dirty_sentinel_or_box (dimensions g rot).1 (dimensions g rot).2 s →
      dirty_sentinel_or_box (dimensions g rot).1 (dimensions g rot).2
        (runOps g s ops) ∧ (runOps g s ops).rotation = rot
  | [], s, hrot, _, hinv => ⟨hinv, hrot⟩
  | op :: rest, s, hrot, hops, hinv => by
    have hstep := applyOp_preserves_inv g rot s op hw1 hh1 hw hh hrot
      (hops op (List.mem_cons_self op rest)) hinv
    have hrot2 : (applyOp g s op).rotation = rot := by
      rw [applyOp_rotation, hrot]
    exact runOps_preserves_inv g rot hw1 hh1 hw hh rest (applyOp g s op) hrot2
      (fun o ho => hops o (List.mem_cons_of_mem op ho)) hstep

/-- Claim C9 (refuted as stated): the dirty-region invariant is violated by a
reachable state — from construction on the 128×64 geometry at rotation 0°,
the single (out-of-range) operation `set_pixel(128, 0, true)` produces
`min_x = max_x = 128`, which is neither empty (`max < min` fails on both
axes) nor within bounds (`max_x < 128` fails). -/
theorem dirty_invariant_counterexample :
    ¬ dirty_inv (dimensions DisplaySize128x64 .Rotate0).1
        (dimensions DisplaySize128x64 .Rotate0).2
        (runOps DisplaySize128x64 (newState 1024 .Rotate0) [Op.set 128 0 true]) := by
  simp only [dirty_inv]
  decide

/-- Claim C9 (amended): in every state reachable from construction by a
sequence of `set_pixel` operations with in-range logical coordinates,
`clear`, and `flush` operations, the dirty region is either exactly the empty
sentinel (`min_x = 255, max_x = 0, min_y = 255, max_y = 0`) or satisfies
`min_x ≤ max_x < width` and `min_y ≤ max_y < height` in the logical
rotation-aware dimensions; the two axes are never in mixed states. -/
theorem dirty_invariant_in_range_ops (g : Geometry) (rot : DisplayRotation)
    (len : Nat) (ops : List Op)
    (hw1 : 1 ≤ g.width) (hh1 : 1 ≤ g.height)
    (hw : g.width < 256) (hh : g.height < 256)
    (hops : ∀ op ∈ ops, opInRange g rot op) :
    dirty_sentinel_or_box (dimensions g rot).1 (dimensions g rot).2
      (runOps g (newState len rot) ops) :=
  (runOps_preserves_inv g rot hw1 hh1 hw hh ops (newState len rot) rfl hops
    (Or.inl ⟨rfl, rfl, rfl, rfl⟩)).1

theorem dirty_invariant_in_range_ops_witness :
    (∀ op ∈ [Op.set 1 2 true, Op.clr false, Op.flushOp (fun _ => true),
        Op.set 0 5 true],
      opInRange ⟨8, 8, 0, 0, 8⟩ .Rotate0 op) ∧
    dirty_sentinel_or_box (dimensions ⟨8, 8, 0, 0, 8⟩ .Rotate0).1
      (dimensions ⟨8, 8, 0, 0, 8⟩ .Rotate0).2
      (runOps ⟨8, 8, 0, 0, 8⟩ (newState 8 .Rotate0)
        [Op.set 1 2 true, Op.clr false, Op.flushOp (fun _ => true),
          Op.set 0 5 true]) :=
  ⟨by decide,
    dirty_invariant_in_range_ops ⟨8, 8, 0, 0, 8⟩ .Rotate0 8
      [Op.set 1 2 true, Op.clr false, Op.flushOp (fun _ => true),
        Op.set 0 5 true]
      (by decide) (by decide) (by decide) (by decide) (by decide)⟩

end Ssd1306

namespace Ssd1306

/-- The embedded 7×7 font table of `CharacterMode::print_chars`
(`src/mode/character.rs`, lines 77-174): 96 glyphs of 7 column bytes each,
672 bytes in total. -/
def FONT_7X7 : List Nat :=
  [
    0x00, 0x00, 0x00, 0x00, 0x00, 0x00, 0x00,
    0x00, 0x00, 0x5F, 0x00, 0x00, 0x00, 0x00,
    0x00, 0x07, 0x00, 0x07, 0x00, 0x00, 0x00,
    0x14, 0x7F, 0x14, 0x7F, 0x14, 0x00, 0x00,
    0x24, 0x2A, 0x7F, 0x2A, 0x12, 0x00, 0x00,
    0x23, 0x13, 0x08, 0x64, 0x62, 0x00, 0x00,
    0x36, 0x49, 0x55, 0x22, 0x50, 0x00, 0x00,
    0x00, 0x05, 0x03, 0x00, 0x00, 0x00, 0x00,
    0x00, 0x1C, 0x22, 0x41, 0x00, 0x00, 0x00,
    0x00, 0x41, 0x22, 0x1C, 0x00, 0x00, 0x00,
    0x08, 0x2A, 0x1C, 0x2A, 0x08, 0x00, 0x00,
    0x08, 0x08, 0x3E, 0x08, 0x08, 0x00, 0x00,
    0x00, 0x50, 0x30, 0x00, 0x00, 0x00, 0x00,
    0x00, 0x18, 0x18, 0x18, 0x18, 0x18, 0x00,
    0x00, 0x60, 0x60, 0x00, 0x00, 0x00, 0x00,
    0x20, 0x10, 0x08, 0x04, 0x02, 0x00, 0x00,
    0x1C, 0x3E, 0x61, 0x41, 0x43, 0x3E, 0x1C,
    0x40, 0x42, 0x7F, 0x7F, 0x40, 0x40, 0x00,
    0x62, 0x73, 0x79, 0x59, 0x5D, 0x4F, 0x46,
    0x20, 0x61, 0x49, 0x4D, 0x4F, 0x7B, 0x31,
    0x18, 0x1C, 0x16, 0x13, 0x7F, 0x7F, 0x10,
    0x27, 0x67, 0x45, 0x45, 0x45, 0x7D, 0x38,
    0x3C, 0x7E, 0x4B, 0x49, 0x49, 0x79, 0x30,
    0x03, 0x03, 0x71, 0x79, 0x0D, 0x07, 0x03,
    0x36, 0x7F, 0x49, 0x49, 0x49, 0x7F, 0x36,
    0x06, 0x4F, 0x49, 0x49, 0x69, 0x3F, 0x1E,
    0x00, 0x36, 0x36, 0x00, 0x00, 0x00, 0x00,
    0x00, 0x56, 0x36, 0x00, 0x00, 0x00, 0x00,
    0x00, 0x08, 0x14, 0x22, 0x41, 0x00, 0x00,
    0x14, 0x14, 0x14, 0x14, 0x14, 0x00, 0x00,
    0x41, 0x22, 0x14, 0x08, 0x00, 0x00, 0x00,
    0x02, 0x01, 0x51, 0x09, 0x06, 0x00, 0x00,
    0x32, 0x49, 0x79, 0x41, 0x3E, 0x00, 0x00,
    0x7E, 0x11, 0x11, 0x11, 0x7E, 0x00, 0x00,
    0x7F, 0x49, 0x49, 0x49, 0x36, 0x00, 0x00,
    0x3E, 0x41, 0x41, 0x41, 0x22, 0x00, 0x00,
    0x7F, 0x7F, 0x41, 0x41, 0x63, 0x3E, 0x1C,
    0x7F, 0x49, 0x49, 0x49, 0x41, 0x00, 0x00,
    0x7F, 0x09, 0x09, 0x01, 0x01, 0x00, 0x00,
    0x3E, 0x41, 0x41, 0x51, 0x32, 0x00, 0x00,
    0x7F, 0x08, 0x08, 0x08, 0x7F, 0x00, 0x00,
    0x00, 0x41, 0x7F, 0x41, 0x00, 0x00, 0x00,
    0x20, 0x40, 0x41, 0x3F, 0x01, 0x00, 0x00,
    0x7F, 0x08, 0x14, 0x22, 0x41, 0x00, 0x00,
    0x7F, 0x7F, 0x40, 0x40, 0x40, 0x40, 0x00,
    0x7F, 0x02, 0x04, 0x02, 0x7F, 0x00, 0x00,
    0x7F, 0x04, 0x08, 0x10, 0x7F, 0x00, 0x00,
    0x3E, 0x7F, 0x41, 0x41, 0x41, 0x7F, 0x3E,
    0x7F, 0x09, 0x09, 0x09, 0x06, 0x00, 0x00,
    0x3E, 0x41, 0x51, 0x21, 0x5E, 0x00, 0x00,
    0x7F, 0x7F, 0x11, 0x31, 0x79, 0x6F, 0x4E,
    0x46, 0x49, 0x49, 0x49, 0x31, 0x00, 0x00,
    0x01, 0x01, 0x7F, 0x01, 0x01, 0x00, 0x00,
    0x3F, 0x40, 0x40, 0x40, 0x3F, 0x00, 0x00,
    0x1F, 0x20, 0x40, 0x20, 0x1F, 0x00, 0x00,
    0x7F, 0x7F, 0x38, 0x1C, 0x38, 0x7F, 0x7F,
    0x63, 0x14, 0x08, 0x14, 0x63, 0x00, 0x00,
    0x03, 0x04, 0x78, 0x04, 0x03, 0x00, 0x00,
    0x61, 0x51, 0x49, 0x45, 0x43, 0x00, 0x00,
    0x00, 0x00, 0x7F, 0x41, 0x41, 0x00, 0x00,
    0x02, 0x04, 0x08, 0x10, 0x20, 0x00, 0x00,
    0x41, 0x41, 0x7F, 0x00, 0x00, 0x00, 0x00,
    0x04, 0x02, 0x01, 0x02, 0x04, 0x00, 0x00,
    0x40, 0x40, 0x40, 0x40, 0x40, 0x00, 0x00,
    0x00, 0x01, 0x02, 0x04, 0x00, 0x00, 0x00,
    0x20, 0x54, 0x54, 0x54, 0x78, 0x00, 0x00,
    0x7F, 0x48, 0x44, 0x44, 0x38, 0x00, 0x00,
    0x38, 0x44, 0x44, 0x44, 0x20, 0x00, 0x00,
    0x38, 0x44, 0x44, 0x48, 0x7F, 0x00, 0x00,
    0x38, 0x54, 0x54, 0x54, 0x18, 0x00, 0x00,
    0x08, 0x7E, 0x09, 0x01, 0x02, 0x00, 0x00,
    0x08, 0x14, 0x54, 0x54, 0x3C, 0x00, 0x00,
    0x7F, 0x08, 0x04, 0x04, 0x78, 0x00, 0x00,
    0x00, 0x44, 0x7D, 0x40, 0x00, 0x00, 0x00,
    0x20, 0x40, 0x44, 0x3D, 0x00, 0x00, 0x00,
    0x00, 0x7F, 0x10, 0x28, 0x44, 0x00, 0x00,
    0x00, 0x41, 0x7F, 0x40, 0x00, 0x00, 0x00,
    0x7C, 0x04, 0x18, 0x04, 0x78, 0x00, 0x00,
    0x7C, 0x08, 0x04, 0x04, 0x78, 0x00, 0x00,
    0x38, 0x44, 0x44, 0x44, 0x38, 0x00, 0x00,
    0x7C, 0x14, 0x14, 0x14, 0x08, 0x00, 0x00,
    0x08, 0x14, 0x14, 0x18, 0x7C, 0x00, 0x00,
    0x7C, 0x08, 0x04, 0x04, 0x08, 0x00, 0x00,
    0x48, 0x54, 0x54, 0x54, 0x20, 0x00, 0x00,
    0x04, 0x3F, 0x44, 0x40, 0x20, 0x00, 0x00,
    0x3C, 0x40, 0x40, 0x20, 0x7C, 0x00, 0x00,
    0x1C, 0x20, 0x40, 0x20, 0x1C, 0x00, 0x00,
    0x3C, 0x40, 0x30, 0x40, 0x3C, 0x00, 0x00,
    0x00, 0x44, 0x28, 0x10, 0x28, 0x44, 0x00,
    0x0C, 0x50, 0x50, 0x50, 0x3C, 0x00, 0x00,
    0x44, 0x64, 0x54, 0x4C, 0x44, 0x00, 0x00,
    0x00, 0x08, 0x36, 0x41, 0x00, 0x00, 0x00,
    0x00, 0x00, 0x7F, 0x00, 0x00, 0x00, 0x00,
    0x00, 0x41, 0x36, 0x08, 0x00, 0x00, 0x00,
    0x08, 0x08, 0x2A, 0x1C, 0x08, 0x00, 0x00,
    0x08, 0x1C, 0x2A, 0x08, 0x08, 0x00, 0x00
  ]

/-- The per-character body of `print_chars` (`src/mode/character.rs`, lines
176-188): `index = (c as usize - 0x20) * 7` and
`data[0..7].copy_from_slice(&FONT_7X7[index..index + 7])`, an 8-byte array
with a trailing blank column.  `none` models a panic: the `usize`
subtraction underflowing (`c < 0x20`) or the slice `index..index + 7`
exceeding the table. -/
def char_data (c : Nat) : Option (List Nat) :=
  if c < 0x20 then
    none
  else
    let index := (c - 0x20) * 7
    if index + 7 ≤ FONT_7X7.length then
      some (((FONT_7X7.drop index).take 7) ++ [0])
    else
      none

/-- `print_chars` (`src/mode/character.rs`, lines 75-191): the list of 8-byte
glyph arrays drawn for the input bytes, `none` if any character's font-table
access would panic. -/
def print_chars : List Nat → Option (List (List Nat))
  | [] => some []
  | c :: rest =>
    match char_data c, print_chars rest with
    | some d, some ds => some (d :: ds)
    | _, _ => none

end Ssd1306

namespace Ssd1306

/-- Claim C10: for every input byte sequence whose bytes all lie in
`0x20..=0x7F`, the font-table indices computed by `print_chars` —
`(c - 0x20) * 7` through `(c - 0x20) * 7 + 7` — stay within the 672-byte
`FONT_7X7` table, so the subtraction cannot underflow and the slice access
cannot go out of bounds; and for bytes outside that range (below `0x20`,
above `0x7F`) the computation underflows or exceeds the table. -/
theorem print_chars_font_index_safe :
    (∀ bytes : List Nat, (∀ c ∈ bytes, 0x20 ≤ c ∧ c ≤ 0x7F) →
      (print_chars bytes).isSome = true ∧
      ∀ c ∈ bytes, 0x20 ≤ c ∧ (c - 0x20) * 7 + 7 ≤ FONT_7X7.length) ∧
    char_data 0x1F = none ∧ char_data 0x80 = none := by
  have hlen : FONT_7X7.length = 672 := by rfl
  refine ⟨?_, by rfl, by rfl⟩
  intro bytes h
  induction bytes with
  | nil => exact ⟨rfl, by simp⟩
  | cons c rest ih =>
    have hc := h c (List.mem_cons_self c rest)
    have hrest := ih fun o ho => h o (List.mem_cons_of_mem c ho)
    have hcd : char_data c =
        some (((FONT_7X7.drop ((c - 0x20) * 7)).take 7) ++ [0]) := by
      simp only [char_data]
      rw [if_neg (show ¬ c < 0x20 by omega),
        if_pos (show (c - 0x20) * 7 + 7 ≤ FONT_7X7.length by rw [hlen]; omega)]
    constructor
    · obtain ⟨ds, hds⟩ := Option.isSome_iff_exists.mp hrest.1
      simp only [print_chars]
      rw [hcd, hds]
      rfl
    · intro o ho
      rcases List.mem_cons.mp ho with rfl | ho2
      · refine ⟨hc.1, ?_⟩
        rw [hlen]
        omega
      · exact hrest.2 o ho2

theorem print_chars_font_index_safe_witness :
    (∀ c ∈ [0x48, 0x69, 0x21], 0x20 ≤ c ∧ c ≤ 0x7F) ∧
    (print_chars [0x48, 0x69, 0x21]).isSome = true :=
  ⟨by decide, (print_chars_font_index_safe.1 [0x48, 0x69, 0x21] (by decide)).1⟩

end Ssd1306
